import Mathlib

/-!
Verification development for the Factur-X invoice service
(apps/facturx-api).  The Python source is shallowly embedded:

* pydantic models (app/models/invoice.py) become Lean structures; their
  field constraints and validators become checked constructors returning
  an error for rejected inputs, mirroring the construction-time
  validation order of pydantic (fields in declaration order, then the
  field validator).
* Python Decimal values become exact rationals (Python Decimal
  arithmetic at the magnitudes used here is exact decimal arithmetic).
* the CII XML generator (app/services/xml_generator.py) is embedded as
  a builder of an element tree (tag, attributes, text, children), the
  same data ElementTree manipulates; serialisation followed by a
  namespace-aware reparse is modelled by the tag-qualification function
  that a conforming XML parser applies to the declared prefixes.
* services whose behaviour depends on an external library or tool
  (pypdf, the facturx library, veraPDF) take that collaborator outcome
  as an explicit argument covering exactly the cases the Python
  try/except structure distinguishes.
-/

namespace FacturXSpec

/-- Monetary, quantity and percentage values: Python Decimal, embedded
as exact rationals. -/
abbrev Dec := ℚ

/-- ISO 4217 currency codes of models/invoice.py (CurrencyCode). -/
inductive CurrencyCode
  | EUR | USD | GBP | CHF
deriving DecidableEq, Repr

/-- Wire value of a currency code (the str-enum value). -/
def CurrencyCode.value : CurrencyCode → String
  | .EUR => "EUR"
  | .USD => "USD"
  | .GBP => "GBP"
  | .CHF => "CHF"

/-- ISO 3166-1 alpha-2 country codes of models/invoice.py (CountryCode). -/
inductive CountryCode
  | FR | DE | IT | ES | BE | NL | LU | AT | PT | IE | FI | GR | CY | EE
  | LV | LT | MT | SK | SI | HR | BG | RO | CZ | HU | PL | DK | SE | US
  | GB | CH
deriving DecidableEq, Repr

/-- Wire value of a country code. -/
def CountryCode.value : CountryCode → String
  | .FR => "FR" | .DE => "DE" | .IT => "IT" | .ES => "ES" | .BE => "BE"
  | .NL => "NL" | .LU => "LU" | .AT => "AT" | .PT => "PT" | .IE => "IE"
  | .FI => "FI" | .GR => "GR" | .CY => "CY" | .EE => "EE" | .LV => "LV"
  | .LT => "LT" | .MT => "MT" | .SK => "SK" | .SI => "SI" | .HR => "HR"
  | .BG => "BG" | .RO => "RO" | .CZ => "CZ" | .HU => "HU" | .PL => "PL"
  | .DK => "DK" | .SE => "SE" | .US => "US" | .GB => "GB" | .CH => "CH"

/-- EN 16931 VAT category codes (VATCategory in models/invoice.py). -/
inductive VATCategory
  | STANDARD | ZERO | EXEMPT | REVERSE | REDUCED | SUPER_REDUCED
deriving DecidableEq, Repr

/-- Wire value of a VAT category. -/
def VATCategory.value : VATCategory → String
  | .STANDARD => "S"
  | .ZERO => "Z"
  | .EXEMPT => "E"
  | .REVERSE => "AE"
  | .REDUCED => "AA"
  | .SUPER_REDUCED => "AB"

/-- Invoice type codes (InvoiceType in models/invoice.py). -/
inductive InvoiceType
  | COMMERCIAL | CREDIT_NOTE | DEBIT_NOTE | CORRECTIVE
deriving DecidableEq, Repr

/-- Wire value of an invoice type code. -/
def InvoiceType.value : InvoiceType → String
  | .COMMERCIAL => "380"
  | .CREDIT_NOTE => "381"
  | .DEBIT_NOTE => "383"
  | .CORRECTIVE => "384"

/-- Payment means codes (PaymentMeans in models/invoice.py). -/
inductive PaymentMeans
  | BANK_TRANSFER | DIRECT_DEBIT | CARD | CASH | CHEQUE
deriving DecidableEq, Repr

/-- Calendar date (Python datetime.date), kept as plain numerals. -/
structure Date where
  year : Nat
  month : Nat
  day : Nat
deriving DecidableEq, Repr

/-- Character 0, used for zero padding. -/
def zeroChar : Char := Char.ofNat 48

/-- Zero-padded decimal rendering, mirroring strftime zero padding. -/
def padNat0 (width : Nat) (n : Nat) : String :=
  let s := toString n
  String.mk (List.replicate (width - s.length) zeroChar) ++ s

/-- Python date.strftime with the format YYYYMMDD used throughout
xml_generator.py. -/
def Date.strftimeYmd (d : Date) : String :=
  padNat0 4 d.year ++ padNat0 2 d.month ++ padNat0 2 d.day

/-- Address model (models/invoice.py, class Address). -/
structure Address where
  street : String
  additional_street : Option String
  city : String
  postal_code : String
  country_subdivision : Option String
  country : CountryCode
deriving DecidableEq, Repr

/-- Tax registration information (models/invoice.py, TaxRegistration). -/
structure TaxRegistration where
  vat_number : Option String
  tax_registration_id : Option String
  tax_scheme : Option String
deriving DecidableEq, Repr

/-- Legal registration information (models/invoice.py, LegalRegistration). -/
structure LegalRegistration where
  registration_name : Option String
  company_id : Option String
  company_legal_form : Option String
deriving DecidableEq, Repr

/-- Party (seller or buyer) model (models/invoice.py, Party). -/
structure Party where
  name : String
  trading_name : Option String
  address : Address
  tax_registration : Option TaxRegistration
  legal_registration : Option LegalRegistration
  contact_name : Option String
  contact_phone : Option String
  contact_email : Option String
  electronic_address : Option String
deriving DecidableEq, Repr

/-- Bank account information (models/invoice.py, BankAccount). -/
structure BankAccount where
  iban : Option String
  bic : Option String
  account_name : Option String
  bank_name : Option String
deriving DecidableEq, Repr

/-- Payment terms (models/invoice.py, PaymentTerms). -/
structure PaymentTerms where
  payment_means_code : PaymentMeans
  payment_terms_description : Option String
  due_date : Option Date
  payment_reference : Option String
  bank_account : Option BankAccount
deriving DecidableEq, Repr

/-- VAT breakdown row (models/invoice.py, VATBreakdown). -/
structure VATBreakdown where
  vat_category : VATCategory
  vat_rate : Dec
  taxable_amount : Dec
  vat_amount : Dec
  vat_exemption_reason : Option String
deriving DecidableEq, Repr

/-- Invoice line item (models/invoice.py, InvoiceLine). -/
structure InvoiceLine where
  line_id : String
  item_name : String
  item_description : Option String
  quantity : Dec
  unit_of_measure : String
  unit_price : Dec
  line_total_amount : Dec
  vat_category : VATCategory
  vat_rate : Dec
  item_classification : Option String
  origin_country : Option CountryCode
deriving DecidableEq, Repr

/-- Invoice totals (models/invoice.py, InvoiceTotals). -/
structure InvoiceTotals where
  line_total_amount : Dec
  allowance_total_amount : Dec
  charge_total_amount : Dec
  tax_exclusive_amount : Dec
  tax_total_amount : Dec
  tax_inclusive_amount : Dec
  prepaid_amount : Dec
  payable_amount : Dec
deriving DecidableEq, Repr

/-- Main invoice model (models/invoice.py, Invoice).  Only fields the
embedded services read are listed with their exact source names. -/
structure Invoice where
  invoice_number : String
  invoice_type : InvoiceType
  issue_date : Date
  due_date : Option Date
  currency_code : CurrencyCode
  seller : Party
  buyer : Party
  invoice_lines : List InvoiceLine
  vat_breakdown : List VATBreakdown
  totals : InvoiceTotals
  payment_terms : Option PaymentTerms
  order_reference : Option String
  contract_reference : Option String
  project_reference : Option String
  invoice_note : Option String
  preceding_invoice_number : Option String
  preceding_invoice_date : Option Date
deriving DecidableEq, Repr

/-- Constructs an InvoiceLine the way pydantic does: the numeric field
constraints of models/invoice.py lines 140-152 are checked in field
declaration order, then the validate_line_total validator (lines
154-161) checks that the line total equals quantity times unit price
within the 0.01 tolerance. -/
def InvoiceLine.construct (line_id item_name : String)
    (item_description : Option String) (quantity : Dec)
    (unit_of_measure : String) (unit_price line_total_amount : Dec)
    (vat_category : VATCategory) (vat_rate : Dec)
    (item_classification : Option String)
    (origin_country : Option CountryCode) : Except String InvoiceLine :=
  if ¬ (0 < quantity) then
    .error "quantity: ensure this value is greater than 0"
  else if ¬ (0 ≤ unit_price) then
    .error "unit_price: ensure this value is greater than or equal to 0"
  else if ¬ (0 ≤ line_total_amount) then
    .error "line_total_amount: ensure this value is greater than or equal to 0"
  else if ¬ (|line_total_amount - quantity * unit_price| ≤ (1 : Dec) / 100) then
    .error "Line total must equal quantity * unit_price"
  else if ¬ (0 ≤ vat_rate ∧ vat_rate ≤ 100) then
    .error "vat_rate: ensure this value is in the range 0 to 100"
  else
    .ok ⟨line_id, item_name, item_description, quantity, unit_of_measure,
      unit_price, line_total_amount, vat_category, vat_rate,
      item_classification, origin_country⟩

/-- Constructs InvoiceTotals the way pydantic does: ge-0 field
constraints in declaration order, interleaved with the three
validators validate_tax_exclusive, validate_tax_inclusive and
validate_payable_amount of models/invoice.py lines 175-200, each at
the absolute 0.01 tolerance. -/
def InvoiceTotals.construct (line_total_amount allowance_total_amount
    charge_total_amount tax_exclusive_amount tax_total_amount
    tax_inclusive_amount prepaid_amount payable_amount : Dec) :
    Except String InvoiceTotals :=
  if ¬ (0 ≤ line_total_amount) then
    .error "line_total_amount: ensure this value is greater than or equal to 0"
  else if ¬ (0 ≤ allowance_total_amount) then
    .error "allowance_total_amount: ensure this value is greater than or equal to 0"
  else if ¬ (0 ≤ charge_total_amount) then
    .error "charge_total_amount: ensure this value is greater than or equal to 0"
  else if ¬ (0 ≤ tax_exclusive_amount) then
    .error "tax_exclusive_amount: ensure this value is greater than or equal to 0"
  else if ¬ (|tax_exclusive_amount -
      (line_total_amount - allowance_total_amount + charge_total_amount)| ≤
      (1 : Dec) / 100) then
    .error "Tax exclusive amount calculation error"
  else if ¬ (0 ≤ tax_total_amount) then
    .error "tax_total_amount: ensure this value is greater than or equal to 0"
  else if ¬ (0 ≤ tax_inclusive_amount) then
    .error "tax_inclusive_amount: ensure this value is greater than or equal to 0"
  else if ¬ (|tax_inclusive_amount - (tax_exclusive_amount + tax_total_amount)| ≤
      (1 : Dec) / 100) then
    .error "Tax inclusive amount calculation error"
  else if ¬ (0 ≤ prepaid_amount) then
    .error "prepaid_amount: ensure this value is greater than or equal to 0"
  else if ¬ (0 ≤ payable_amount) then
    .error "payable_amount: ensure this value is greater than or equal to 0"
  else if ¬ (|payable_amount - (tax_inclusive_amount - prepaid_amount)| ≤
      (1 : Dec) / 100) then
    .error "Payable amount calculation error"
  else
    .ok ⟨line_total_amount, allowance_total_amount, charge_total_amount,
      tax_exclusive_amount, tax_total_amount, tax_inclusive_amount,
      prepaid_amount, payable_amount⟩

/-- Grouping key of InvoiceService._calculate_vat_breakdown: the
(vat_rate, vat_category) tuple used as dict key. -/
abbrev VatKey := Dec × VATCategory

/-- One entry of the vat_breakdowns dict built by
InvoiceService._calculate_vat_breakdown (invoice_service.py lines
64-82): accumulated taxable and tax amounts for one key, tagged with
the rate and category of the key. -/
structure VatGroup where
  rate : Dec
  category : VATCategory
  taxable_amount : Dec
  tax_amount : Dec
deriving DecidableEq, Repr

/-- Key of a vat_breakdowns entry. -/
def VatGroup.key (g : VatGroup) : VatKey := (g.rate, g.category)

/-- Adds one line contribution to the dict entries: a Python dict is
insertion ordered, an update of an existing key keeps its position and
a new key is appended at the end. -/
def addToGroups : List VatGroup → Dec → VATCategory → Dec → Dec → List VatGroup
  | [], rate, cat, lt, va => [⟨rate, cat, lt, va⟩]
  | g :: gs, rate, cat, lt, va =>
    if g.rate = rate ∧ g.category = cat then
      ⟨g.rate, g.category, g.taxable_amount + lt, g.tax_amount + va⟩ :: gs
    else
      g :: addToGroups gs rate cat lt va

/-- One iteration of the loop of _calculate_vat_breakdown: line_total
is quantity * unit_price and vat_amount is line_total * (rate / 100),
exactly as invoice_service.py lines 67-82 compute them. -/
def vatGroupsStep (acc : List VatGroup) (line : InvoiceLine) : List VatGroup :=
  addToGroups acc line.vat_rate line.vat_category
    (line.quantity * line.unit_price)
    (line.quantity * line.unit_price * (line.vat_rate / 100))

/-- Resulting dict of the _calculate_vat_breakdown loop over the
request lines. -/
def vatGroups (invoice_lines : List InvoiceLine) : List VatGroup :=
  invoice_lines.foldl vatGroupsStep []

/-- InvoiceService._calculate_vat_breakdown (invoice_service.py lines
60-93): one VATBreakdown row per dict entry, in dict (insertion)
order.  The pydantic VATBreakdown constraints (rates and amounts
nonnegative) hold for every validly constructed request line, so the
row construction cannot fail there and is embedded directly. -/
def calculate_vat_breakdown (invoice_lines : List InvoiceLine) : List VATBreakdown :=
  (vatGroups invoice_lines).map fun g =>
    ⟨g.category, g.rate, g.taxable_amount, g.tax_amount, none⟩

/-- Accumulated line_extension_amount of InvoiceService.calculate_totals
(invoice_service.py lines 35-45). -/
def lineExtensionAmount (invoice_lines : List InvoiceLine) : Dec :=
  invoice_lines.foldl (fun acc line => acc + line.quantity * line.unit_price) 0

/-- Accumulated total_vat_amount of InvoiceService.calculate_totals
(invoice_service.py lines 35-45). -/
def totalVatAmount (invoice_lines : List InvoiceLine) : Dec :=
  invoice_lines.foldl
    (fun acc line => acc + line.quantity * line.unit_price * (line.vat_rate / 100)) 0

/-- InvoiceService.calculate_totals (invoice_service.py lines 33-58):
tax_exclusive is the line extension amount, tax_inclusive adds the
total VAT, payable equals tax_inclusive, and the InvoiceTotals pydantic
constructor validates the result; allowance, charge and prepaid
amounts take their pydantic defaults of 0. -/
def calculate_totals (invoice_lines : List InvoiceLine) : Except String InvoiceTotals :=
  InvoiceTotals.construct
    (lineExtensionAmount invoice_lines) 0 0
    (lineExtensionAmount invoice_lines)
    (totalVatAmount invoice_lines)
    (lineExtensionAmount invoice_lines + totalVatAmount invoice_lines) 0
    (lineExtensionAmount invoice_lines + totalVatAmount invoice_lines)

/-- Specification-side list of the first occurrences of elements, in
input order; used to state the insertion-order claim about the VAT
breakdown rows. -/
def firstOccurrences {α : Type} [DecidableEq α] (l : List α) : List α :=
  l.foldl (fun acc k => if k ∈ acc then acc else acc ++ [k]) []

/-- Validity of an InvoiceLine as pydantic guarantees it for every
constructed value: the numeric field constraints of models/invoice.py
lines 145-150. -/
def InvoiceLine.valid (line : InvoiceLine) : Prop :=
  0 < line.quantity ∧ 0 ≤ line.unit_price ∧ 0 ≤ line.line_total_amount ∧
    0 ≤ line.vat_rate ∧ line.vat_rate ≤ 100

instance (line : InvoiceLine) : Decidable line.valid := by
  unfold InvoiceLine.valid; infer_instance

/-- XML element tree node, the data xml.etree.ElementTree manipulates:
tag, attribute list in insertion order, text and child list. -/
inductive Xml where
  | elem (tag : String) (attrs : List (String × String))
      (text : Option String) (children : List Xml)

/-- Tag of an element. -/
def Xml.tag : Xml → String
  | .elem t _ _ _ => t

/-- Children of an element. -/
def Xml.children : Xml → List Xml
  | .elem _ _ _ ch => ch

/-- Text of an element. -/
def Xml.text : Xml → Option String
  | .elem _ _ tx _ => tx

/-- Attribute list of an element. -/
def Xml.attrs : Xml → List (String × String)
  | .elem _ a _ _ => a

/-- Python str on a Decimal.  The exact digit rendering is immaterial
to every property proved here (no claim inspects a rendered amount),
so the default rational rendering stands in for the decimal one. -/
def decStr (d : Dec) : String := toString d

/-- Truthiness of a Python Optional[str]: present and nonempty. -/
def strTruthy : Option String → Bool
  | none => false
  | some s => s ≠ ""

/-- Namespace prefix bindings of XMLGenerator.__init__
(xml_generator.py lines 16-22), in dict order. -/
def xmlNamespaces : List (String × String) :=
  [("rsm", "urn:un:unece:uncefact:data:standard:CrossIndustryInvoice:100"),
   ("qdt", "urn:un:unece:uncefact:data:standard:QualifiedDataType:100"),
   ("ram", "urn:un:unece:uncefact:data:standard:ReusableAggregateBusinessInformationEntity:100"),
   ("xs", "http://www.w3.org/2001/XMLSchema"),
   ("udt", "urn:un:unece:uncefact:data:standard:UnqualifiedDataType:100")]

/-- XMLGenerator._add_exchange_context (xml_generator.py lines 47-57).
The invoice parameter is unused by the source as well. -/
def add_exchange_context (_invoice : Invoice) : Xml :=
  .elem "rsm:ExchangedDocumentContext" [] none
    [.elem "ram:BusinessProcessSpecifiedDocumentContextParameter" [] none
       [.elem "ram:ID" [] (some "A1") []],
     .elem "ram:GuidelineSpecifiedDocumentContextParameter" [] none
       [.elem "ram:ID" []
          (some "urn:cen.eu:en16931:2017#compliant#urn:factur-x.eu:1p0:basic") []]]

/-- XMLGenerator._add_exchanged_document (xml_generator.py lines 59-77):
invoice number, fixed type code 380, issue date as YYYYMMDD with
format attribute 102 and the fixed included note. -/
def add_exchanged_document (invoice : Invoice) : Xml :=
  .elem "rsm:ExchangedDocument" [] none
    [.elem "ram:ID" [] (some invoice.invoice_number) [],
     .elem "ram:TypeCode" [] (some "380") [],
     .elem "ram:IssueDateTime" [] none
       [.elem "udt:DateTimeString" [("format", "102")]
          (some invoice.issue_date.strftimeYmd) []],
     .elem "ram:IncludedNote" [] none
       [.elem "ram:Content" [] (some "Commercial Invoice") []]]

/-- XMLGenerator._add_line_item (xml_generator.py lines 96-138).  The
currencyID attributes on ChargeAmount and LineTotalAmount are the
hardcoded string EUR of lines 115 and 138.  The unitCode attribute is
the getattr default C62 of line 121: the source reads a unit_code
attribute that InvoiceLine does not define (its field is named
unit_of_measure), so the default is always taken. -/
def add_line_item (line : InvoiceLine) : Xml :=
  .elem "ram:IncludedSupplyChainTradeLineItem" [] none
    [.elem "ram:AssociatedDocumentLineDocument" [] none
       [.elem "ram:LineID" [] (some line.line_id) []],
     .elem "ram:SpecifiedTradeProduct" [] none
       [.elem "ram:Name" [] (some line.item_name) []],
     .elem "ram:SpecifiedLineTradeAgreement" [] none
       [.elem "ram:NetPriceProductTradePrice" [] none
          [.elem "ram:ChargeAmount" [("currencyID", "EUR")]
             (some (decStr line.unit_price)) []]],
     .elem "ram:SpecifiedLineTradeDelivery" [] none
       [.elem "ram:BilledQuantity" [("unitCode", "C62")]
          (some (decStr line.quantity)) []],
     .elem "ram:SpecifiedLineTradeSettlement" [] none
       [.elem "ram:ApplicableTradeTax" [] none
          [.elem "ram:TypeCode" [] (some "VAT") [],
           .elem "ram:CategoryCode" [] (some line.vat_category.value) [],
           .elem "ram:RateApplicablePercent" [] (some (decStr line.vat_rate)) []],
        .elem "ram:SpecifiedTradeSettlementLineMonetarySummation" [] none
          [.elem "ram:LineTotalAmount" [("currencyID", "EUR")]
             (some (decStr line.line_total_amount)) []]]]

/-- XMLGenerator._add_trade_party_info (xml_generator.py lines
258-302), returned as the child list of the party element.  The party
id is the getattr default ROLE_001 of line 262 (Party defines no
party_id attribute); street and city are emitted only when nonempty
(Python string truthiness); the country enum member is always truthy;
the tax registration block needs a present, nonempty vat_number; the
contact block appears when any contact field is truthy. -/
def trade_party_info_children (party : Party) (party_type_upper : String) : List Xml :=
  [.elem "ram:ID" [] (some (party_type_upper ++ "_001")) [],
   .elem "ram:Name" [] (some party.name) []] ++
  [.elem "ram:PostalTradeAddress" [] none
     ((if party.address.street ≠ "" then
         [Xml.elem "ram:LineOne" [] (some party.address.street) []] else []) ++
      (if party.address.city ≠ "" then
         [Xml.elem "ram:CityName" [] (some party.address.city) []] else []) ++
      [Xml.elem "ram:CountryID" [] (some party.address.country.value) []])] ++
  (match party.tax_registration with
   | none => []
   | some tr =>
     match tr.vat_number with
     | none => []
     | some v =>
       if v ≠ "" then
         [Xml.elem "ram:SpecifiedTaxRegistration" [] none
            [Xml.elem "ram:ID" [("schemeID", "VA")] (some v) []]]
       else []) ++
  (if strTruthy party.contact_name || strTruthy party.contact_phone ||
      strTruthy party.contact_email then
     [Xml.elem "ram:DefinedTradeContact" [] none
        ((if strTruthy party.contact_name then
            [Xml.elem "ram:PersonName" [] party.contact_name []] else []) ++
         (if strTruthy party.contact_phone then
            [Xml.elem "ram:TelephoneUniversalCommunication" [] none
               [Xml.elem "ram:CompleteNumber" [] party.contact_phone []]] else []) ++
         (if strTruthy party.contact_email then
            [Xml.elem "ram:EmailURIUniversalCommunication" [] none
               [Xml.elem "ram:URIID" [] party.contact_email []]] else []))]
   else [])

/-- XMLGenerator._add_header_trade_agreement (xml_generator.py lines
140-159): optional buyer reference, the seller and buyer trade
parties (always present) and an optional contract reference. -/
def add_header_trade_agreement (invoice : Invoice) : Xml :=
  .elem "ram:ApplicableHeaderTradeAgreement" [] none
    ((if strTruthy invoice.order_reference then
        [Xml.elem "ram:BuyerReference" [] invoice.order_reference []] else []) ++
     [Xml.elem "ram:SellerTradeParty" [] none
        (trade_party_info_children invoice.seller "SELLER"),
      Xml.elem "ram:BuyerTradeParty" [] none
        (trade_party_info_children invoice.buyer "BUYER")] ++
     (if strTruthy invoice.contract_reference then
        [Xml.elem "ram:ContractReferencedDocument" [] none
           [Xml.elem "ram:IssuerAssignedID" [] invoice.contract_reference []]]
      else []))

/-- XMLGenerator._add_header_trade_delivery (xml_generator.py lines
161-172): delivery date defaulted to the issue date. -/
def add_header_trade_delivery (invoice : Invoice) : Xml :=
  .elem "ram:ApplicableHeaderTradeDelivery" [] none
    [.elem "ram:ActualDeliverySupplyChainEvent" [] none
       [.elem "ram:OccurrenceDateTime" [] none
          [.elem "udt:DateTimeString" [("format", "102")]
             (some invoice.issue_date.strftimeYmd) []]]]

/-- One ApplicableTradeTax block of the header settlement
(xml_generator.py lines 182-204); currencyID here is the invoice
currency, and the rate element appears only for a positive rate. -/
def header_trade_tax (currency : String) (vb : VATBreakdown) : Xml :=
  .elem "ram:ApplicableTradeTax" [] none
    ([Xml.elem "ram:CalculatedAmount" [("currencyID", currency)]
        (some (decStr vb.vat_amount)) [],
      Xml.elem "ram:TypeCode" [] (some "VAT") [],
      Xml.elem "ram:BasisAmount" [("currencyID", currency)]
        (some (decStr vb.taxable_amount)) [],
      Xml.elem "ram:CategoryCode" [] (some vb.vat_category.value) []] ++
     (if 0 < vb.vat_rate then
        [Xml.elem "ram:RateApplicablePercent" [] (some (decStr vb.vat_rate)) []]
      else []))

/-- XMLGenerator._add_header_trade_settlement (xml_generator.py lines
174-256): currency code, one trade tax block per breakdown row, an
optional payment terms block, the monetary summation whose five
amounts carry the invoice currency, and the invoice referenced
document. -/
def add_header_trade_settlement (invoice : Invoice) : Xml :=
  .elem "ram:ApplicableHeaderTradeSettlement" [] none
    ([Xml.elem "ram:InvoiceCurrencyCode" [] (some invoice.currency_code.value) []] ++
     (invoice.vat_breakdown.map (header_trade_tax invoice.currency_code.value)) ++
     (match invoice.payment_terms with
      | none => []
      | some pt =>
        [Xml.elem "ram:SpecifiedTradePaymentTerms" [] none
           ((if strTruthy pt.payment_terms_description then
               [Xml.elem "ram:Description" [] pt.payment_terms_description []]
             else []) ++
            (match invoice.due_date with
             | none => []
             | some dd =>
               [Xml.elem "ram:DueDateDateTime" [] none
                  [Xml.elem "udt:DateTimeString" [("format", "102")]
                     (some dd.strftimeYmd) []]]))]) ++
     [Xml.elem "ram:SpecifiedTradeSettlementHeaderMonetarySummation" [] none
        [Xml.elem "ram:LineTotalAmount"
           [("currencyID", invoice.currency_code.value)]
           (some (decStr invoice.totals.line_total_amount)) [],
         Xml.elem "ram:TaxBasisTotalAmount"
           [("currencyID", invoice.currency_code.value)]
           (some (decStr invoice.totals.tax_exclusive_amount)) [],
         Xml.elem "ram:TaxTotalAmount"
           [("currencyID", invoice.currency_code.value)]
           (some (decStr ((invoice.vat_breakdown.map VATBreakdown.vat_amount).sum))) [],
         Xml.elem "ram:GrandTotalAmount"
           [("currencyID", invoice.currency_code.value)]
           (some (decStr invoice.totals.tax_inclusive_amount)) [],
         Xml.elem "ram:DuePayableAmount"
           [("currencyID", invoice.currency_code.value)]
           (some (decStr invoice.totals.payable_amount)) []],
      Xml.elem "ram:InvoiceReferencedDocument" [] none
        [Xml.elem "ram:IssuerAssignedID" [] (some invoice.invoice_number) [],
         Xml.elem "ram:FormattedIssueDateTime" [] none
           [Xml.elem "qdt:DateTimeString" [("format", "102")]
              (some invoice.issue_date.strftimeYmd) []]]])

/-- XMLGenerator._add_supply_chain_trade_transaction (xml_generator.py
lines 79-94): one line item block per invoice line followed by the
header agreement, delivery and settlement blocks. -/
def add_supply_chain_trade_transaction (invoice : Invoice) : Xml :=
  .elem "rsm:SupplyChainTradeTransaction" [] none
    ((invoice.invoice_lines.map add_line_item) ++
     [add_header_trade_agreement invoice,
      add_header_trade_delivery invoice,
      add_header_trade_settlement invoice])

/-- XMLGenerator.generate_cii_xml (xml_generator.py lines 24-45) up to
serialisation: the root element with its xmlns and schema-location
attributes and the three document sections.  The Python function
returns the pretty-printed text of exactly this tree; the tree is the
value every structural property concerns, and the reparse of the
serialised text is modelled by qualifyXml below. -/
def generate_cii_xml (invoice : Invoice) : Xml :=
  .elem "rsm:CrossIndustryInvoice"
    ((xmlNamespaces.map fun p => ("xmlns:" ++ p.1, p.2)) ++
     [("xmlns:xsi", "http://www.w3.org/2001/XMLSchema-instance"),
      ("xsi:schemaLocation",
       "urn:un:unece:uncefact:data:standard:CrossIndustryInvoice:100 CrossIndustryInvoice_100pD16B.xsd")])
    none
    [add_exchange_context invoice,
     add_exchanged_document invoice,
     add_supply_chain_trade_transaction invoice]

/-- Splits a character list at its first colon. -/
def splitAtColon : List Char → Option (List Char × List Char)
  | [] => none
  | c :: cs =>
    if c = ':' then some ([], cs)
    else
      match splitAtColon cs with
      | some (p, l) => some (c :: p, l)
      | none => none

/-- Namespaces declared on the generated root element: the five
generator bindings plus xsi (xml_generator.py lines 27-32). -/
def declaredNamespaces : List (String × String) :=
  xmlNamespaces ++ [("xsi", "http://www.w3.org/2001/XMLSchema-instance")]

/-- Resolves a prefixed name against declared namespaces the way a
namespace-aware XML parser does: prefix:local becomes the Clark name
\x7buri\x7dlocal; an undeclared prefix or unprefixed name stays as
written. -/
def resolveName (ns : List (String × String)) (t : String) : String :=
  match splitAtColon t.toList with
  | some (p, l) =>
    match List.lookup (String.mk p) ns with
    | some uri => "\x7b" ++ uri ++ "\x7d" ++ String.mk l
    | none => t
  | none => t

/-- Attribute treatment on reparse: xmlns declarations disappear into
the namespace context and remaining prefixed attribute names are
resolved to Clark names. -/
def qualifyAttr (a : String × String) : Option (String × String) :=
  match splitAtColon a.1.toList with
  | some (p, _) =>
    if String.mk p = "xmlns" then none
    else some (resolveName declaredNamespaces a.1, a.2)
  | none => if a.1 = "xmlns" then none else some a

mutual

/-- Reparse of the serialised element tree: ElementTree.tostring
writes the prefixed tags with the declared xmlns attributes and
fromstring resolves every name, so parse after serialise acts on the
tree by this qualification (whitespace pretty-printing does not change
the element structure). -/
def qualifyXml : Xml → Xml
  | .elem t a tx ch =>
    .elem (resolveName declaredNamespaces t) (a.filterMap qualifyAttr) tx
      (qualifyForest ch)

/-- Qualification mapped over a child list. -/
def qualifyForest : List Xml → List Xml
  | [] => []
  | x :: xs => qualifyXml x :: qualifyForest xs

end

/-- Document-order search over a forest for the first element with a
given tag, at any depth: the semantics of ElementTree find with a
.//tag path applied to the children of the root. -/
def findInForest (t : String) : List Xml → Option Xml
  | [] => none
  | .elem tg a tx ch :: rest =>
    if tg = t then some (.elem tg a tx ch)
    else
      match findInForest t ch with
      | some r => some r
      | none => findInForest t rest

/-- Shape of the report returned by XMLGenerator.validate_xml_structure. -/
structure XmlValidationResult where
  is_valid : Bool
  errors : List String
  warnings : List String
deriving DecidableEq, Repr

/-- Required element paths of validate_xml_structure
(xml_generator.py lines 318-323). -/
def requiredElementPaths : List String :=
  [".//rsm:ExchangedDocumentContext",
   ".//rsm:SupplyChainTradeTransaction",
   ".//ram:SellerTradeParty",
   ".//ram:BuyerTradeParty"]

/-- Strips the leading .// of an ElementPath descendant pattern. -/
def pathTag (p : String) : String :=
  match p.toList with
  | '.' :: '/' :: '/' :: rest => String.mk rest
  | _ => p

/-- One root.find call of validate_xml_structure: the .//prefix:tag
path resolved through the generator namespace map, searched over the
descendants of the root. -/
def findPath (root : Xml) (p : String) : Option Xml :=
  findInForest (resolveName xmlNamespaces (pathTag p)) root.children

/-- XMLGenerator.validate_xml_structure (xml_generator.py lines
304-337).  The argument is the outcome of parsing the input text:
ok with the parsed tree, or error with the exception text, the two
cases the try/except of the source distinguishes.  A parse failure
becomes an error entry in the returned report, never a raised fault. -/
def validate_xml_structure (parsed : Except String Xml) : XmlValidationResult :=
  match parsed with
  | .error e => ⟨false, ["XML parsing error: " ++ e], []⟩
  | .ok root =>
    requiredElementPaths.foldl
      (fun r p =>
        if (findPath root p).isNone then
          ⟨false, r.errors ++ ["Missing required element: " ++ p], r.warnings⟩
        else r)
      ⟨true, [], []⟩

/-- Values of every currencyID attribute in a forest, in document
order. -/
def currencyAttrsForest : List Xml → List String
  | [] => []
  | .elem _ a _ ch :: rest =>
    (a.filterMap fun p => if p.1 = "currencyID" then some p.2 else none) ++
      currencyAttrsForest ch ++ currencyAttrsForest rest

/-- Values of every currencyID attribute of a document. -/
def currencyAttrValues (x : Xml) : List String := currencyAttrsForest [x]

/-- FacturXService.generate_facturx_invoice (facturx_service.py lines
22-56) restricted to its XML content output: the source computes
xml_content = self.xml_generator.generate_cii_xml(invoice) and never
consults the facturx_level argument while producing it. -/
def generate_facturx_invoice_xml (invoice : Invoice)
    (_facturx_level : String) : Xml :=
  generate_cii_xml invoice

/-- First direct child with a given tag. -/
def firstChildTag (t : String) : List Xml → Option Xml
  | [] => none
  | x :: xs => if x.tag = t then some x else firstChildTag t xs

/-- Text of the guideline identifier element of a generated document:
the ram:ID child of the ram:GuidelineSpecifiedDocumentContextParameter
element. -/
def guidelineIdOf (x : Xml) : Option String :=
  match findInForest "ram:GuidelineSpecifiedDocumentContextParameter" x.children with
  | none => none
  | some g =>
    match firstChildTag "ram:ID" g.children with
    | none => none
    | some idElem => idElem.text

/-- Byte strings handed to the PDF services. -/
abbrev ByteBlob := List Nat

/-- Bytes of an ASCII literal. -/
def bytesOfString (s : String) : ByteBlob := s.toList.map Char.toNat

/-- PDFGenerator._embed_xml_in_pdf (pdf_generator.py lines 386-426).
The whole body runs under one try/except; the outcome argument is
what the pypdf calls produce on these inputs: ok with the written
buffer, or error when any pypdf operation raises (for example because
pdf_bytes is not a valid PDF).  The except branch returns the
original pdf_bytes unchanged. -/
def embed_xml_in_pdf (pdf_bytes : ByteBlob) (_xml_content : String)
    (pypdf_outcome : Except String ByteBlob) : ByteBlob :=
  match pypdf_outcome with
  | .ok written => written
  | .error _ => pdf_bytes

/-- Shape of the reports of validation_service.py. -/
structure PdfaReport where
  is_valid : Bool
  errors : List String
  warnings : List String
  validator : String
deriving DecidableEq, Repr

/-- Whether the pattern is an initial run of the data bytes. -/
def startsWithBytes : ByteBlob → ByteBlob → Bool
  | [], _ => true
  | _ :: _, [] => false
  | p :: ps, b :: bs => p == b && startsWithBytes ps bs

/-- Whether the pattern occurs contiguously anywhere in the data. -/
def containsBytes (pat : ByteBlob) : ByteBlob → Bool
  | [] => pat.isEmpty
  | b :: bs => startsWithBytes pat (b :: bs) || containsBytes pat bs

/-- ValidationService._fallback_validation (validation_service.py
lines 129-156): byte-level heuristics, valid iff no error, and the
degraded-validation warning always appended, validator field
"fallback". -/
def fallback_validation (pdf_content : ByteBlob) : PdfaReport :=
  let errors :=
    (if ¬ startsWithBytes (bytesOfString "%PDF-") pdf_content then
       ["Invalid PDF header"] else []) ++
    (if pdf_content.length < 1024 then ["PDF file too small"] else [])
  let warnings :=
    (if ¬ containsBytes (bytesOfString "%%EOF")
         (pdf_content.drop (pdf_content.length - 1024)) then
       ["PDF trailer not found in expected location"] else []) ++
    (if ¬ containsBytes (bytesOfString "<x:xmpmeta") pdf_content then
       ["XMP metadata not found (required for PDF/A)"] else [])
  ⟨errors.isEmpty, errors,
    warnings ++ ["veraPDF not available - using basic validation"], "fallback"⟩

/-- ValidationService.validate_pdfa3 (validation_service.py lines
45-78).  verapdf_path is the probed tool path; vera_outcome models the
subprocess call when the tool exists: some parsed report on a zero
exit, none when the run fails, times out or raises, in which case the
source falls back.  With no tool path the fallback runs directly. -/
def validate_pdfa3 (verapdf_path : Option String)
    (vera_outcome : Option PdfaReport) (pdf_content : ByteBlob) : PdfaReport :=
  match verapdf_path with
  | none => fallback_validation pdf_content
  | some _ =>
    match vera_outcome with
    | some r => r
    | none => fallback_validation pdf_content

/-- Outcome of parsing extracted XML bytes and reading their level
(facturx_service.py lines 113-124): fail when etree.fromstring or
get_level raises, parsed with the level get_level returned (none for
a falsy level). -/
inductive XmlParseOutcome where
  | fail (msg : String)
  | parsed (level : Option String)
deriving DecidableEq, Repr

/-- Outcome of get_facturx_xml_from_pdf on the input bytes
(facturx_service.py lines 105-131): raises when the library call
raises, noXml when it returns no XML payload, xml with the subsequent
parse outcome otherwise. -/
inductive ExtractOutcome where
  | raises (msg : String)
  | noXml
  | xml (p : XmlParseOutcome)
deriving DecidableEq, Repr

/-- Shape of the report of FacturXService.validate_facturx_file. -/
structure FacturxReport where
  is_valid : Bool
  facturx_level : Option String
  has_xml : Bool
  xml_valid : Bool
  errors : List String
  warnings : List String
deriving DecidableEq, Repr

/-- FacturXService.validate_facturx_file (facturx_service.py lines
82-143): starts from an all-clear report and updates it per the
extraction and parse outcome, mirroring each branch of the source. -/
def validate_facturx_file : ExtractOutcome → FacturxReport
  | .raises msg =>
    ⟨false, none, false, false,
     ["Failed to determine Factur-X level: " ++ msg], []⟩
  | .noXml =>
    ⟨true, none, false, false, [], ["No Factur-X XML found in PDF"]⟩
  | .xml (.fail msg) =>
    ⟨false, none, true, false, ["XML parsing failed: " ++ msg], []⟩
  | .xml (.parsed none) =>
    ⟨true, none, true, true, [], ["Could not determine Factur-X level"]⟩
  | .xml (.parsed (some lvl)) =>
    ⟨true, some lvl, true, true, [], []⟩

/-- Concrete address used by the witness inputs. -/
def sampleAddress : Address :=
  ⟨"123 Business Street", none, "Lyon", "69000", none, .FR⟩

/-- Concrete party used by the witness inputs. -/
def sampleParty : Party :=
  ⟨"ACME Corporation", none, sampleAddress, none, none, none, none, none, none⟩

/-- Concrete invoice line: quantity 1 at unit price 100, VAT 20
percent standard rate. -/
def sampleLine : InvoiceLine :=
  ⟨"1", "Software License", none, 1, "C62", 100, 100, .STANDARD, 20, none, none⟩

/-- Concrete totals consistent with the single sample line. -/
def sampleTotals : InvoiceTotals := ⟨100, 0, 0, 100, 20, 120, 0, 120⟩

/-- Concrete VAT breakdown row for the sample line. -/
def sampleBreakdownRow : VATBreakdown := ⟨.STANDARD, 20, 100, 20, none⟩

/-- Concrete invoice whose currency is USD, used to exhibit the
hardcoded line-level EUR currency attribute. -/
def usdInvoice : Invoice :=
  ⟨"FX-2024-000001", .COMMERCIAL, ⟨2024, 1, 15⟩, none, .USD, sampleParty,
    sampleParty, [sampleLine], [sampleBreakdownRow], sampleTotals, none,
    none, none, none, none, none, none⟩

/-! Theorems. -/

/-- Inversion of a successful InvoiceLine construction: the value is
the record of the inputs and the line-total validator relation holds. -/
lemma line_construct_ok {lid nm : String} {desc : Option String}
    {q : Dec} {uom : String} {up lt : Dec} {cat : VATCategory} {rate : Dec}
    {cls : Option String} {oc : Option CountryCode} {line : InvoiceLine}
    (h : InvoiceLine.construct lid nm desc q uom up lt cat rate cls oc =
      .ok line) :
    line = ⟨lid, nm, desc, q, uom, up, lt, cat, rate, cls, oc⟩ ∧
    |lt - q * up| ≤ (1 : Dec) / 100 := by
  unfold InvoiceLine.construct at h
  split at h
  · exact Except.noConfusion h
  split at h
  · exact Except.noConfusion h
  split at h
  · exact Except.noConfusion h
  split at h
  · exact Except.noConfusion h
  split at h
  · exact Except.noConfusion h
  rename_i g1 g2 g3 g4 g5
  push_neg at g4
  cases h
  exact ⟨rfl, g4⟩

/-- Inversion of a successful InvoiceTotals construction: the value is
the record of the inputs and the three validator relations hold. -/
lemma totals_construct_ok {lta ata cta texc ttot tinc pre pay : Dec}
    {t : InvoiceTotals}
    (h : InvoiceTotals.construct lta ata cta texc ttot tinc pre pay = .ok t) :
    t = ⟨lta, ata, cta, texc, ttot, tinc, pre, pay⟩ ∧
    |texc - (lta - ata + cta)| ≤ (1 : Dec) / 100 ∧
    |tinc - (texc + ttot)| ≤ (1 : Dec) / 100 ∧
    |pay - (tinc - pre)| ≤ (1 : Dec) / 100 := by
  delta InvoiceTotals.construct at h
  by_cases g1 : 0 ≤ lta
  case neg => rw [if_pos g1] at h; exact Except.noConfusion h
  rw [if_neg (not_not_intro g1)] at h
  by_cases g2 : 0 ≤ ata
  case neg => rw [if_pos g2] at h; exact Except.noConfusion h
  rw [if_neg (not_not_intro g2)] at h
  by_cases g3 : 0 ≤ cta
  case neg => rw [if_pos g3] at h; exact Except.noConfusion h
  rw [if_neg (not_not_intro g3)] at h
  by_cases g4 : 0 ≤ texc
  case neg => rw [if_pos g4] at h; exact Except.noConfusion h
  rw [if_neg (not_not_intro g4)] at h
  by_cases g5 : |texc - (lta - ata + cta)| ≤ (1 : Dec) / 100
  case neg => rw [if_pos g5] at h; exact Except.noConfusion h
  rw [if_neg (not_not_intro g5)] at h
  by_cases g6 : 0 ≤ ttot
  case neg => rw [if_pos g6] at h; exact Except.noConfusion h
  rw [if_neg (not_not_intro g6)] at h
  by_cases g7 : 0 ≤ tinc
  case neg => rw [if_pos g7] at h; exact Except.noConfusion h
  rw [if_neg (not_not_intro g7)] at h
  by_cases g8 : |tinc - (texc + ttot)| ≤ (1 : Dec) / 100
  case neg => rw [if_pos g8] at h; exact Except.noConfusion h
  rw [if_neg (not_not_intro g8)] at h
  by_cases g9 : 0 ≤ pre
  case neg => rw [if_pos g9] at h; exact Except.noConfusion h
  rw [if_neg (not_not_intro g9)] at h
  by_cases g10 : 0 ≤ pay
  case neg => rw [if_pos g10] at h; exact Except.noConfusion h
  rw [if_neg (not_not_intro g10)] at h
  by_cases g11 : |pay - (tinc - pre)| ≤ (1 : Dec) / 100
  case neg => rw [if_pos g11] at h; exact Except.noConfusion h
  rw [if_neg (not_not_intro g11)] at h
  cases h
  exact ⟨rfl, g5, g8, g11⟩

/-- C2: constructing an InvoiceLine or InvoiceTotals whose fields
violate one of the four arithmetic relations by more than 0.01 is
rejected with a validation error, and every successfully constructed
value satisfies all applicable relations within 0.01. -/
theorem claim_C2_construction_invariants :
    (∀ lid nm desc q uom up lt cat rate cls oc,
      (1 : Dec) / 100 < |lt - q * up| →
      ∃ msg, InvoiceLine.construct lid nm desc q uom up lt cat rate cls oc =
        .error msg) ∧
    (∀ lid nm desc q uom up lt cat rate cls oc line,
      InvoiceLine.construct lid nm desc q uom up lt cat rate cls oc = .ok line →
      |line.line_total_amount - line.quantity * line.unit_price| ≤ (1 : Dec) / 100) ∧
    (∀ lta ata cta texc ttot tinc pre pay,
      ((1 : Dec) / 100 < |texc - (lta - ata + cta)| ∨
       (1 : Dec) / 100 < |tinc - (texc + ttot)| ∨
       (1 : Dec) / 100 < |pay - (tinc - pre)|) →
      ∃ msg, InvoiceTotals.construct lta ata cta texc ttot tinc pre pay =
        .error msg) ∧
    (∀ lta ata cta texc ttot tinc pre pay t,
      InvoiceTotals.construct lta ata cta texc ttot tinc pre pay = .ok t →
      |t.tax_exclusive_amount - (t.line_total_amount - t.allowance_total_amount +
        t.charge_total_amount)| ≤ (1 : Dec) / 100 ∧
      |t.tax_inclusive_amount - (t.tax_exclusive_amount + t.tax_total_amount)| ≤
        (1 : Dec) / 100 ∧
      |t.payable_amount - (t.tax_inclusive_amount - t.prepaid_amount)| ≤
        (1 : Dec) / 100) := by
  refine ⟨?_, ?_, ?_, ?_⟩
  · intro lid nm desc q uom up lt cat rate cls oc hviol
    cases hres : InvoiceLine.construct lid nm desc q uom up lt cat rate cls oc with
    | error msg => exact ⟨msg, rfl⟩
    | ok line =>
      exact absurd (line_construct_ok hres).2 (not_le.mpr hviol)
  · intro lid nm desc q uom up lt cat rate cls oc line h
    obtain ⟨ht, hrel⟩ := line_construct_ok h
    subst ht
    exact hrel
  · intro lta ata cta texc ttot tinc pre pay hviol
    cases hres : InvoiceTotals.construct lta ata cta texc ttot tinc pre pay with
    | error msg => exact ⟨msg, rfl⟩
    | ok t =>
      obtain ⟨-, r1, r2, r3⟩ := totals_construct_ok hres
      rcases hviol with hv | hv | hv
      · exact absurd r1 (not_le.mpr hv)
      · exact absurd r2 (not_le.mpr hv)
      · exact absurd r3 (not_le.mpr hv)
  · intro lta ata cta texc ttot tinc pre pay t h
    obtain ⟨ht, r1, r2, r3⟩ := totals_construct_ok h
    subst ht
    exact ⟨r1, r2, r3⟩

/-- Witness for C2: a line whose total misses quantity times unit
price by more than 0.01 is rejected, and totals violating the
tax-inclusive relation are rejected. -/
theorem claim_C2_witness :
    ((1 : Dec) / 100 < |(150 : Dec) - 1 * 100| ∧
      ∃ msg, InvoiceLine.construct "1" "Item" none 1 "C62" 100 150 .STANDARD 20
        none none = .error msg) ∧
    (((1 : Dec) / 100 < |(100 : Dec) - (100 - 0 + 0)| ∨
      (1 : Dec) / 100 < |(150 : Dec) - (100 + 20)| ∨
      (1 : Dec) / 100 < |(150 : Dec) - (150 - 0)|) ∧
      ∃ msg, InvoiceTotals.construct 100 0 0 100 20 150 0 150 = .error msg) := by
  constructor
  · refine ⟨by norm_num, ?_⟩
    exact claim_C2_construction_invariants.1 "1" "Item" none 1 "C62" 100 150
      .STANDARD 20 none none (by norm_num)
  · refine ⟨by norm_num, ?_⟩
    exact claim_C2_construction_invariants.2.2.1 100 0 0 100 20 150 0 150
      (by norm_num)

/-- C6: validate_xml_structure is total over parse outcomes; a parse
failure yields an invalid report whose errors list carries the parse
failure text. -/
theorem claim_C6_parse_failure_report (parsed : Except String Xml) :
    (∃ r : XmlValidationResult, validate_xml_structure parsed = r) ∧
    (∀ msg, parsed = .error msg →
      (validate_xml_structure parsed).is_valid = false ∧
      ("XML parsing error: " ++ msg) ∈ (validate_xml_structure parsed).errors) := by
  refine ⟨⟨validate_xml_structure parsed, rfl⟩, ?_⟩
  intro msg h
  subst h
  exact ⟨rfl, List.mem_singleton.mpr rfl⟩

/-- Witness for C6: a concrete parse failure is reported, not raised. -/
theorem claim_C6_witness :
    ((Except.error "syntax error: line 1, column 0" : Except String Xml) =
      .error "syntax error: line 1, column 0") ∧
    (validate_xml_structure (.error "syntax error: line 1, column 0")).is_valid =
      false := by
  exact ⟨rfl, ((claim_C6_parse_failure_report
    (.error "syntax error: line 1, column 0")).2 _ rfl).1⟩

/-- C7: when the pypdf operations fail on the given inputs,
_embed_xml_in_pdf returns the original input bytes unchanged instead
of raising. -/
theorem claim_C7_embed_fallback (pdf_bytes : ByteBlob) (xml_content : String)
    (msg : String) :
    embed_xml_in_pdf pdf_bytes xml_content (.error msg) = pdf_bytes := rfl

/-- Unfolding equation for the currency attribute collector at a cons
of an element. -/
lemma currencyAttrsForest_elem_cons (t : String) (a : List (String × String))
    (tx : Option String) (ch rest : List Xml) :
    currencyAttrsForest (.elem t a tx ch :: rest) =
      (a.filterMap fun p => if p.1 = "currencyID" then some p.2 else none) ++
        currencyAttrsForest ch ++ currencyAttrsForest rest := by
  rw [currencyAttrsForest]

/-- A currencyID attribute value of any element of a forest occurs in
the collected values. -/
lemma mem_currencyAttrsForest_attr {v : String} :
    ∀ (forest : List Xml) (x : Xml), x ∈ forest →
      ("currencyID", v) ∈ x.attrs → v ∈ currencyAttrsForest forest := by
  intro forest
  induction forest with
  | nil => intro x hx _; exact absurd hx (List.not_mem_nil x)
  | cons y ys ih =>
    intro x hx hattr
    rcases List.mem_cons.mp hx with he | hm
    · subst he
      cases x with
      | elem t a tx ch =>
        rw [currencyAttrsForest_elem_cons]
        refine List.mem_append_left _ (List.mem_append_left _ ?_)
        refine List.mem_filterMap.mpr ⟨("currencyID", v), ?_, by simp⟩
        simpa [Xml.attrs] using hattr
    · cases y with
      | elem t a tx ch =>
        rw [currencyAttrsForest_elem_cons]
        exact List.mem_append_right _ (ih x hm hattr)

/-- Collected currency values of the children of a member element are
collected for the forest as well. -/
lemma mem_currencyAttrsForest_child {v : String} :
    ∀ (forest : List Xml) (x : Xml), x ∈ forest →
      v ∈ currencyAttrsForest x.children → v ∈ currencyAttrsForest forest := by
  intro forest
  induction forest with
  | nil => intro x hx _; exact absurd hx (List.not_mem_nil x)
  | cons y ys ih =>
    intro x hx hsub
    rcases List.mem_cons.mp hx with he | hm
    · subst he
      cases x with
      | elem t a tx ch =>
        rw [currencyAttrsForest_elem_cons]
        refine List.mem_append_left _ (List.mem_append_right _ ?_)
        simpa [Xml.children] using hsub
    · cases y with
      | elem t a tx ch =>
        rw [currencyAttrsForest_elem_cons]
        exact List.mem_append_right _ (ih x hm hsub)

/-- C1 counterevidence: the generated XML of an invoice whose currency
is USD still carries a currencyID="EUR" attribute (the line-level
unit-price and line-total amounts are hardcoded to EUR by
_add_line_item, xml_generator.py lines 115 and 138). -/
theorem claim_C1_hardcoded_line_currency :
    usdInvoice.currency_code = CurrencyCode.USD ∧
    CurrencyCode.USD.value = "USD" ∧
    "EUR" ∈ currencyAttrValues (generate_cii_xml usdInvoice) := by
  refine ⟨rfl, rfl, ?_⟩
  show "EUR" ∈ currencyAttrsForest [generate_cii_xml usdInvoice]
  refine mem_currencyAttrsForest_child _ (generate_cii_xml usdInvoice)
    (List.mem_singleton.mpr rfl) ?_
  show "EUR" ∈ currencyAttrsForest
    [add_exchange_context usdInvoice, add_exchanged_document usdInvoice,
     add_supply_chain_trade_transaction usdInvoice]
  refine mem_currencyAttrsForest_child _
    (add_supply_chain_trade_transaction usdInvoice)
    (List.mem_cons_of_mem _ (List.mem_cons_of_mem _ (List.mem_cons_self _ _))) ?_
  show "EUR" ∈ currencyAttrsForest
    (add_line_item sampleLine ::
      [add_header_trade_agreement usdInvoice, add_header_trade_delivery usdInvoice,
       add_header_trade_settlement usdInvoice])
  refine mem_currencyAttrsForest_child _ (add_line_item sampleLine)
    (List.mem_cons_self _ _) ?_
  refine mem_currencyAttrsForest_child _
    (Xml.elem "ram:SpecifiedLineTradeAgreement" [] none
      [Xml.elem "ram:NetPriceProductTradePrice" [] none
        [Xml.elem "ram:ChargeAmount" [("currencyID", "EUR")]
          (some (decStr sampleLine.unit_price)) []]])
    (by simp [add_line_item, Xml.children]) ?_
  refine mem_currencyAttrsForest_child _
    (Xml.elem "ram:NetPriceProductTradePrice" [] none
      [Xml.elem "ram:ChargeAmount" [("currencyID", "EUR")]
        (some (decStr sampleLine.unit_price)) []])
    (by simp [Xml.children]) ?_
  refine mem_currencyAttrsForest_attr _
    (Xml.elem "ram:ChargeAmount" [("currencyID", "EUR")]
      (some (decStr sampleLine.unit_price)) [])
    (by simp [Xml.children]) ?_
  simp [Xml.attrs]

/-- Accumulating folds over lines equal the head start plus the summed
map. -/
lemma foldl_add_map_sum (f : InvoiceLine → Dec) :
    ∀ (lines : List InvoiceLine) (c : Dec),
      lines.foldl (fun acc l => acc + f l) c = c + (lines.map f).sum := by
  intro lines
  induction lines with
  | nil => intro c; simp
  | cons l ls ih =>
    intro c
    rw [List.foldl_cons, ih, List.map_cons, List.sum_cons]
    ring

/-- The accumulated line extension amount is the sum of the per-line
quantity times unit price. -/
lemma lineExtensionAmount_eq (lines : List InvoiceLine) :
    lineExtensionAmount lines =
      (lines.map fun l => l.quantity * l.unit_price).sum := by
  unfold lineExtensionAmount
  rw [foldl_add_map_sum]
  ring

/-- The accumulated VAT total is the sum of the per-line VAT amounts. -/
lemma totalVatAmount_eq (lines : List InvoiceLine) :
    totalVatAmount lines =
      (lines.map fun l => l.quantity * l.unit_price * (l.vat_rate / 100)).sum := by
  unfold totalVatAmount
  rw [foldl_add_map_sum]
  ring

/-- Adding a contribution to the dict entries raises the taxable total
by exactly that contribution. -/
lemma addToGroups_taxable_sum (r : Dec) (c : VATCategory) (lt va : Dec) :
    ∀ gs : List VatGroup,
      ((addToGroups gs r c lt va).map VatGroup.taxable_amount).sum =
        (gs.map VatGroup.taxable_amount).sum + lt := by
  intro gs
  induction gs with
  | nil => simp [addToGroups]
  | cons g rest ih =>
    by_cases hk : g.rate = r ∧ g.category = c
    · simp only [addToGroups, if_pos hk, List.map_cons, List.sum_cons]
      ring
    · simp only [addToGroups, if_neg hk, List.map_cons, List.sum_cons, ih]
      ring

/-- Adding a contribution to the dict entries raises the tax total by
exactly that contribution. -/
lemma addToGroups_tax_sum (r : Dec) (c : VATCategory) (lt va : Dec) :
    ∀ gs : List VatGroup,
      ((addToGroups gs r c lt va).map VatGroup.tax_amount).sum =
        (gs.map VatGroup.tax_amount).sum + va := by
  intro gs
  induction gs with
  | nil => simp [addToGroups]
  | cons g rest ih =>
    by_cases hk : g.rate = r ∧ g.category = c
    · simp only [addToGroups, if_pos hk, List.map_cons, List.sum_cons]
      ring
    · simp only [addToGroups, if_neg hk, List.map_cons, List.sum_cons, ih]
      ring

/-- The grouped taxable amounts sum to the plain per-line sum,
whatever the starting dict. -/
lemma vatGroups_taxable_sum :
    ∀ (lines : List InvoiceLine) (acc : List VatGroup),
      ((lines.foldl vatGroupsStep acc).map VatGroup.taxable_amount).sum =
        (acc.map VatGroup.taxable_amount).sum +
          (lines.map fun l => l.quantity * l.unit_price).sum := by
  intro lines
  induction lines with
  | nil => intro acc; simp
  | cons l ls ih =>
    intro acc
    rw [List.foldl_cons, ih, vatGroupsStep, addToGroups_taxable_sum,
      List.map_cons, List.sum_cons]
    ring

/-- The grouped tax amounts sum to the plain per-line VAT sum,
whatever the starting dict. -/
lemma vatGroups_tax_sum :
    ∀ (lines : List InvoiceLine) (acc : List VatGroup),
      ((lines.foldl vatGroupsStep acc).map VatGroup.tax_amount).sum =
        (acc.map VatGroup.tax_amount).sum +
          (lines.map fun l => l.quantity * l.unit_price * (l.vat_rate / 100)).sum := by
  intro lines
  induction lines with
  | nil => intro acc; simp
  | cons l ls ih =>
    intro acc
    rw [List.foldl_cons, ih, vatGroupsStep, addToGroups_tax_sum,
      List.map_cons, List.sum_cons]
    ring

/-- C4: for every request whose lines satisfy the pydantic line
constraints, calculate_totals succeeds and the VAT-breakdown taxable
and VAT amounts sum to the produced tax_exclusive_amount and
tax_total_amount within 0.01 (they are exactly equal). -/
theorem claim_C4_breakdown_sums (invoice_lines : List InvoiceLine)
    (hv : ∀ l ∈ invoice_lines, l.valid) :
    ∃ t, calculate_totals invoice_lines = .ok t ∧
      |((calculate_vat_breakdown invoice_lines).map
          VATBreakdown.taxable_amount).sum - t.tax_exclusive_amount| ≤
        (1 : Dec) / 100 ∧
      |((calculate_vat_breakdown invoice_lines).map
          VATBreakdown.vat_amount).sum - t.tax_total_amount| ≤
        (1 : Dec) / 100 := by
  have hE : 0 ≤ lineExtensionAmount invoice_lines := by
    rw [lineExtensionAmount_eq]
    apply List.sum_nonneg
    intro x hx
    obtain ⟨l, hl, rfl⟩ := List.mem_map.mp hx
    obtain ⟨hq, hup, -, -, -⟩ := hv l hl
    exact mul_nonneg hq.le hup
  have hV : 0 ≤ totalVatAmount invoice_lines := by
    rw [totalVatAmount_eq]
    apply List.sum_nonneg
    intro x hx
    obtain ⟨l, hl, rfl⟩ := List.mem_map.mp hx
    obtain ⟨hq, hup, -, hr, -⟩ := hv l hl
    exact mul_nonneg (mul_nonneg hq.le hup) (div_nonneg hr (by norm_num))
  have hEV : 0 ≤ lineExtensionAmount invoice_lines + totalVatAmount invoice_lines :=
    add_nonneg hE hV
  refine ⟨⟨lineExtensionAmount invoice_lines, 0, 0,
    lineExtensionAmount invoice_lines, totalVatAmount invoice_lines,
    lineExtensionAmount invoice_lines + totalVatAmount invoice_lines, 0,
    lineExtensionAmount invoice_lines + totalVatAmount invoice_lines⟩,
      ?_, ?_, ?_⟩
  · rw [calculate_totals]
    delta InvoiceTotals.construct
    rw [if_neg (not_not_intro hE)]
    rw [if_neg (not_not_intro (le_refl (0 : Dec)))]
    rw [if_neg (not_not_intro (le_refl (0 : Dec)))]
    rw [if_neg (not_not_intro hE)]
    rw [if_neg (not_not_intro (by
      rw [show lineExtensionAmount invoice_lines -
        (lineExtensionAmount invoice_lines - 0 + 0) = 0 by ring, abs_zero]
      norm_num))]
    rw [if_neg (not_not_intro hV)]
    rw [if_neg (not_not_intro hEV)]
    rw [if_neg (not_not_intro (by
      rw [show lineExtensionAmount invoice_lines + totalVatAmount invoice_lines -
        (lineExtensionAmount invoice_lines + totalVatAmount invoice_lines) = 0
        by ring, abs_zero]
      norm_num))]
    rw [if_neg (not_not_intro (le_refl (0 : Dec)))]
    rw [if_neg (not_not_intro hEV)]
    rw [if_neg (not_not_intro (by
      rw [show lineExtensionAmount invoice_lines + totalVatAmount invoice_lines -
        (lineExtensionAmount invoice_lines + totalVatAmount invoice_lines - 0) = 0
        by ring, abs_zero]
      norm_num))]
  · have h1 : ((calculate_vat_breakdown invoice_lines).map
        VATBreakdown.taxable_amount).sum = lineExtensionAmount invoice_lines := by
      rw [calculate_vat_breakdown, List.map_map]
      show ((vatGroups invoice_lines).map VatGroup.taxable_amount).sum = _
      rw [vatGroups, vatGroups_taxable_sum, lineExtensionAmount_eq]
      simp
    rw [h1]
    simp only [sub_self, abs_zero]
    norm_num
  · have h2 : ((calculate_vat_breakdown invoice_lines).map
        VATBreakdown.vat_amount).sum = totalVatAmount invoice_lines := by
      rw [calculate_vat_breakdown, List.map_map]
      show ((vatGroups invoice_lines).map VatGroup.tax_amount).sum = _
      rw [vatGroups, vatGroups_tax_sum, totalVatAmount_eq]
      simp
    rw [h2]
    simp only [sub_self, abs_zero]
    norm_num

/-- Witness for C4: the sample single-line request satisfies the line
constraints and the sums agree. -/
theorem claim_C4_witness :
    (∀ l ∈ [sampleLine], l.valid) ∧
    ∃ t, calculate_totals [sampleLine] = .ok t ∧
      |((calculate_vat_breakdown [sampleLine]).map
          VATBreakdown.taxable_amount).sum - t.tax_exclusive_amount| ≤
        (1 : Dec) / 100 ∧
      |((calculate_vat_breakdown [sampleLine]).map
          VATBreakdown.vat_amount).sum - t.tax_total_amount| ≤
        (1 : Dec) / 100 := by
  have hv : ∀ l ∈ [sampleLine], l.valid := by
    intro l hl
    rw [List.mem_singleton] at hl
    subst hl
    constructor
    · norm_num [sampleLine]
    refine ⟨by norm_num [sampleLine], by norm_num [sampleLine],
      by norm_num [sampleLine], by norm_num [sampleLine]⟩
  exact ⟨hv, claim_C4_breakdown_sums [sampleLine] hv⟩

/-- Keys of the dict after adding a contribution: unchanged when the
key is present, appended at the end otherwise. -/
lemma addToGroups_keys (r : Dec) (c : VATCategory) (lt va : Dec) :
    ∀ gs : List VatGroup,
      (addToGroups gs r c lt va).map VatGroup.key =
        if (r, c) ∈ gs.map VatGroup.key then gs.map VatGroup.key
        else gs.map VatGroup.key ++ [(r, c)] := by
  intro gs
  induction gs with
  | nil => simp [addToGroups, VatGroup.key]
  | cons g rest ih =>
    by_cases hk : g.rate = r ∧ g.category = c
    · have hkey : VatGroup.key g = (r, c) := by
        rw [VatGroup.key, hk.1, hk.2]
      simp only [addToGroups, if_pos hk, List.map_cons]
      rw [if_pos (by rw [List.mem_cons]; exact Or.inl hkey.symm)]
      rw [show VatGroup.key (⟨g.rate, g.category, g.taxable_amount + lt,
        g.tax_amount + va⟩ : VatGroup) = VatGroup.key g from rfl]
    · have hkey : VatGroup.key g ≠ (r, c) := by
        rw [VatGroup.key, Ne, Prod.mk.injEq]
        exact hk
      simp only [addToGroups, if_neg hk, List.map_cons, ih]
      by_cases hm : (r, c) ∈ rest.map VatGroup.key
      · rw [if_pos hm, if_pos (List.mem_cons_of_mem _ hm)]
      · rw [if_neg hm, if_neg (by
          rw [List.mem_cons]
          rintro (he | hmem)
          · exact hkey he.symm
          · exact hm hmem)]
        rfl

/-- Keys of the folded dict equal the fold of the pure key step. -/
lemma vatGroups_keys :
    ∀ (lines : List InvoiceLine) (acc : List VatGroup),
      (lines.foldl vatGroupsStep acc).map VatGroup.key =
        lines.foldl
          (fun ks l => if (l.vat_rate, l.vat_category) ∈ ks then ks
            else ks ++ [(l.vat_rate, l.vat_category)])
          (acc.map VatGroup.key) := by
  intro lines
  induction lines with
  | nil => intro acc; simp
  | cons l ls ih =>
    intro acc
    rw [List.foldl_cons, List.foldl_cons, ih, vatGroupsStep, addToGroups_keys]

/-- First-occurrence lists carry no duplicates. -/
lemma firstOccurrences_nodup {α : Type} [DecidableEq α] (l : List α) :
    (firstOccurrences l).Nodup := by
  suffices h : ∀ (l : List α) (acc : List α), acc.Nodup →
      (l.foldl (fun acc k => if k ∈ acc then acc else acc ++ [k]) acc).Nodup by
    exact h l [] List.nodup_nil
  intro l
  induction l with
  | nil => intro acc hacc; simpa using hacc
  | cons x xs ih =>
    intro acc hacc
    rw [List.foldl_cons]
    by_cases hm : x ∈ acc
    · simp only [if_pos hm]
      exact ih acc hacc
    · simp only [if_neg hm]
      refine ih _ ?_
      rw [List.nodup_append]
      exact ⟨hacc, List.nodup_singleton x, by
        intro a ha hax
        rw [List.mem_singleton] at hax
        subst hax
        exact hm ha⟩

/-- C5: the VAT breakdown has exactly one row per distinct
(rate, category) pair, in order of first occurrence in the input
lines. -/
theorem claim_C5_first_seen_grouping (invoice_lines : List InvoiceLine) :
    ((calculate_vat_breakdown invoice_lines).map
        fun b => (b.vat_rate, b.vat_category)) =
      firstOccurrences (invoice_lines.map fun l => (l.vat_rate, l.vat_category)) ∧
    ((calculate_vat_breakdown invoice_lines).map
        fun b => (b.vat_rate, b.vat_category)).Nodup := by
  have hmap : ((calculate_vat_breakdown invoice_lines).map
      fun b => (b.vat_rate, b.vat_category)) =
      (vatGroups invoice_lines).map VatGroup.key := by
    rw [calculate_vat_breakdown, List.map_map]
    rfl
  have heq : (vatGroups invoice_lines).map VatGroup.key =
      firstOccurrences (invoice_lines.map fun l => (l.vat_rate, l.vat_category)) := by
    rw [vatGroups, vatGroups_keys, firstOccurrences, List.foldl_map, List.map_nil]
    congr 1
    funext ks l
    by_cases h : (l.vat_rate, l.vat_category) ∈ ks
    · rw [if_pos h, if_pos h]
    · rw [if_neg h, if_neg h]
  refine ⟨by rw [hmap, heq], ?_⟩
  rw [hmap, heq]
  exact firstOccurrences_nodup _

/-- Qualification distributes over forest concatenation. -/
lemma qualifyForest_append : ∀ (a b : List Xml),
    qualifyForest (a ++ b) = qualifyForest a ++ qualifyForest b := by
  intro a b
  induction a with
  | nil => simp [qualifyForest]
  | cons x xs ih => simp [qualifyForest, ih]

/-- A forest containing an element with the searched tag yields a find
result. -/
lemma findInForest_isSome_of_tag {t : String} :
    ∀ (forest : List Xml) (x : Xml), x ∈ forest → x.tag = t →
      ∃ y, findInForest t forest = some y := by
  intro forest
  induction forest with
  | nil => intro x hx _; exact absurd hx (List.not_mem_nil x)
  | cons y ys ih =>
    intro x hx htag
    rcases List.mem_cons.mp hx with he | hm
    · subst he
      cases x with
      | elem tg a tx ch =>
        rw [Xml.tag] at htag
        refine ⟨.elem tg a tx ch, ?_⟩
        simp [findInForest, htag]
    · cases y with
      | elem tg a tx ch =>
        by_cases htg : tg = t
        · exact ⟨.elem tg a tx ch, by simp [findInForest, htg]⟩
        · cases hc : findInForest t ch with
          | some r => exact ⟨r, by simp [findInForest, htg, hc]⟩
          | none =>
            obtain ⟨r, hr⟩ := ih x hm htag
            exact ⟨r, by simp [findInForest, htg, hc, hr]⟩

/-- A find result inside the children of a member element lifts to the
forest. -/
lemma findInForest_isSome_of_child {t : String} :
    ∀ (forest : List Xml) (x : Xml), x ∈ forest →
      (∃ y, findInForest t x.children = some y) →
      ∃ y, findInForest t forest = some y := by
  intro forest
  induction forest with
  | nil => intro x hx _; exact absurd hx (List.not_mem_nil x)
  | cons y ys ih =>
    intro x hx hsub
    rcases List.mem_cons.mp hx with he | hm
    · subst he
      cases x with
      | elem tg a tx ch =>
        obtain ⟨r, hr⟩ := hsub
        rw [Xml.children] at hr
        by_cases htg : tg = t
        · exact ⟨.elem tg a tx ch, by simp [findInForest, htg]⟩
        · exact ⟨r, by simp [findInForest, htg, hr]⟩
    · cases y with
      | elem tg a tx ch =>
        by_cases htg : tg = t
        · exact ⟨.elem tg a tx ch, by simp [findInForest, htg]⟩
        · cases hc : findInForest t ch with
          | some r => exact ⟨r, by simp [findInForest, htg, hc]⟩
          | none =>
            obtain ⟨r, hr⟩ := ih x hm hsub
            exact ⟨r, by simp [findInForest, htg, hc, hr]⟩

/-- C3: structurally validating the reparse of the XML generated for
any invoice reports valid with no errors and no warnings: the four
required anchor elements are always produced. -/
theorem claim_C3_generated_xml_validates (invoice : Invoice) :
    validate_xml_structure (.ok (qualifyXml (generate_cii_xml invoice))) =
      ⟨true, [], []⟩ := by
  have hch : (qualifyXml (generate_cii_xml invoice)).children =
      [qualifyXml (add_exchange_context invoice),
       qualifyXml (add_exchanged_document invoice),
       qualifyXml (add_supply_chain_trade_transaction invoice)] := by
    rw [generate_cii_xml, qualifyXml, Xml.children, qualifyForest, qualifyForest,
      qualifyForest, qualifyForest]
  have hch3 : (qualifyXml (add_supply_chain_trade_transaction invoice)).children =
      qualifyForest (invoice.invoice_lines.map add_line_item) ++
        [qualifyXml (add_header_trade_agreement invoice),
         qualifyXml (add_header_trade_delivery invoice),
         qualifyXml (add_header_trade_settlement invoice)] := by
    rw [add_supply_chain_trade_transaction, qualifyXml, Xml.children,
      qualifyForest_append, qualifyForest, qualifyForest, qualifyForest,
      qualifyForest]
  have hch4 : (qualifyXml (add_header_trade_agreement invoice)).children =
      qualifyForest (if strTruthy invoice.order_reference then
          [Xml.elem "ram:BuyerReference" [] invoice.order_reference []] else []) ++
        (Xml.elem (resolveName declaredNamespaces "ram:SellerTradeParty")
            (List.filterMap qualifyAttr []) none
            (qualifyForest (trade_party_info_children invoice.seller "SELLER")) ::
          Xml.elem (resolveName declaredNamespaces "ram:BuyerTradeParty")
            (List.filterMap qualifyAttr []) none
            (qualifyForest (trade_party_info_children invoice.buyer "BUYER")) ::
          qualifyForest (if strTruthy invoice.contract_reference then
            [Xml.elem "ram:ContractReferencedDocument" [] none
              [Xml.elem "ram:IssuerAssignedID" [] invoice.contract_reference []]]
          else [])) := by
    rw [add_header_trade_agreement, qualifyXml, Xml.children,
      qualifyForest_append, qualifyForest_append, qualifyForest, qualifyForest,
      qualifyXml, qualifyXml]
    simp [qualifyForest]
  have h1 : ∃ y, findPath (qualifyXml (generate_cii_xml invoice))
      ".//rsm:ExchangedDocumentContext" = some y := by
    rw [findPath, hch]
    refine findInForest_isSome_of_tag _ (qualifyXml (add_exchange_context invoice))
      (List.mem_cons_self _ _) ?_
    rw [add_exchange_context, qualifyXml, Xml.tag]
    decide
  have h2 : ∃ y, findPath (qualifyXml (generate_cii_xml invoice))
      ".//rsm:SupplyChainTradeTransaction" = some y := by
    rw [findPath, hch]
    refine findInForest_isSome_of_tag _
      (qualifyXml (add_supply_chain_trade_transaction invoice))
      (List.mem_cons_of_mem _ (List.mem_cons_of_mem _ (List.mem_cons_self _ _))) ?_
    rw [add_supply_chain_trade_transaction, qualifyXml, Xml.tag]
    decide
  have h3 : ∃ y, findPath (qualifyXml (generate_cii_xml invoice))
      ".//ram:SellerTradeParty" = some y := by
    rw [findPath, hch]
    refine findInForest_isSome_of_child _
      (qualifyXml (add_supply_chain_trade_transaction invoice))
      (List.mem_cons_of_mem _ (List.mem_cons_of_mem _ (List.mem_cons_self _ _))) ?_
    rw [hch3]
    refine findInForest_isSome_of_child _
      (qualifyXml (add_header_trade_agreement invoice))
      (List.mem_append_right _ (List.mem_cons_self _ _)) ?_
    rw [hch4]
    refine findInForest_isSome_of_tag _
      (Xml.elem (resolveName declaredNamespaces "ram:SellerTradeParty")
        (List.filterMap qualifyAttr []) none
        (qualifyForest (trade_party_info_children invoice.seller "SELLER")))
      (List.mem_append_right _ (List.mem_cons_self _ _)) ?_
    rw [Xml.tag]
    decide
  have h4 : ∃ y, findPath (qualifyXml (generate_cii_xml invoice))
      ".//ram:BuyerTradeParty" = some y := by
    rw [findPath, hch]
    refine findInForest_isSome_of_child _
      (qualifyXml (add_supply_chain_trade_transaction invoice))
      (List.mem_cons_of_mem _ (List.mem_cons_of_mem _ (List.mem_cons_self _ _))) ?_
    rw [hch3]
    refine findInForest_isSome_of_child _
      (qualifyXml (add_header_trade_agreement invoice))
      (List.mem_append_right _ (List.mem_cons_self _ _)) ?_
    rw [hch4]
    refine findInForest_isSome_of_tag _
      (Xml.elem (resolveName declaredNamespaces "ram:BuyerTradeParty")
        (List.filterMap qualifyAttr []) none
        (qualifyForest (trade_party_info_children invoice.buyer "BUYER")))
      (List.mem_append_right _
        (List.mem_cons_of_mem _ (List.mem_cons_self _ _))) ?_
    rw [Xml.tag]
    decide
  obtain ⟨y1, hy1⟩ := h1
  obtain ⟨y2, hy2⟩ := h2
  obtain ⟨y3, hy3⟩ := h3
  obtain ⟨y4, hy4⟩ := h4
  simp [validate_xml_structure, requiredElementPaths, hy1, hy2, hy3, hy4]

/-- C9: a PDF from which no Factur-X XML can be extracted yields
has_xml false, the missing-XML notice as a warning with an empty
errors list, and is_valid still true. -/
theorem claim_C9_missing_xml_warning :
    validate_facturx_file .noXml =
      ⟨true, none, false, false, [], ["No Factur-X XML found in PDF"]⟩ := rfl

/-- C8: with veraPDF unavailable, validate_pdfa3 reports through the
fallback validator with the degraded-validation warning, and a blob
without the PDF header magic is reported invalid with at least one
error. -/
theorem claim_C8_fallback_report (vera_outcome : Option PdfaReport)
    (pdf_content : ByteBlob) :
    (validate_pdfa3 none vera_outcome pdf_content).validator = "fallback" ∧
    "veraPDF not available - using basic validation" ∈
      (validate_pdfa3 none vera_outcome pdf_content).warnings ∧
    (startsWithBytes (bytesOfString "%PDF-") pdf_content = false →
      (validate_pdfa3 none vera_outcome pdf_content).is_valid = false ∧
      (validate_pdfa3 none vera_outcome pdf_content).errors ≠ []) := by
  refine ⟨rfl, ?_, ?_⟩
  · simp [validate_pdfa3, fallback_validation]
  · intro h
    constructor
    · show (fallback_validation pdf_content).is_valid = false
      simp [fallback_validation, h]
    · show (fallback_validation pdf_content).errors ≠ []
      simp [fallback_validation, h]

/-- Witness for C8: the literal blob b"not a pdf" lacks the PDF header
and is reported invalid by the fallback validator. -/
theorem claim_C8_witness :
    startsWithBytes (bytesOfString "%PDF-") (bytesOfString "not a pdf") = false ∧
    (validate_pdfa3 none none (bytesOfString "not a pdf")).validator = "fallback" ∧
    (validate_pdfa3 none none (bytesOfString "not a pdf")).is_valid = false := by
  have hs : startsWithBytes (bytesOfString "%PDF-") (bytesOfString "not a pdf") =
      false := by decide
  have h := claim_C8_fallback_report none (bytesOfString "not a pdf")
  exact ⟨hs, h.1, (h.2.2 hs).1⟩

/-- C10: the facturx_level argument has no effect on the generated XML
and the guideline identifier is always the Basic profile literal. -/
theorem claim_C10_level_has_no_effect (invoice : Invoice) (L1 L2 : String) :
    generate_facturx_invoice_xml invoice L1 =
      generate_facturx_invoice_xml invoice L2 ∧
    guidelineIdOf (generate_facturx_invoice_xml invoice L1) =
      some "urn:cen.eu:en16931:2017#compliant#urn:factur-x.eu:1p0:basic" := by
  refine ⟨rfl, ?_⟩
  simp [generate_facturx_invoice_xml, guidelineIdOf, generate_cii_xml,
    add_exchange_context, findInForest, firstChildTag, Xml.children, Xml.tag,
    Xml.text]

end FacturXSpec
